import Mathlib

/-!
Verification of the budgeting-app calculation engine (src/frontend/script.js).

The engine is embedded shallowly over the rationals: JS numbers that the
engine actually manipulates are modelled as `ℚ` (the spec fixes rational
arithmetic, no rounding); `parseFloat` failures and JS `null` are modelled
with `Option`; the two expense ledgers are lists of entries; `Date.now()`
is modelled as an explicit millisecond timestamp parameter.
-/

/-- A ledger entry: `{id, name, amount}` as pushed by `addSubscription` /
`addAnnualCost` in script.js. -/
structure Entry where
  id : String
  name : String
  amount : ℚ
deriving DecidableEq

/-- The two income input modes of the UI (hourly fields vs annual field),
with the already-parsed numeric values. -/
inductive IncomeInput where
  | hourly (rate hoursPerWeek : ℚ)
  | annual (amount : ℚ)
deriving DecidableEq

/-- The record returned by `calculateLocally` in script.js. -/
structure CalculationResult where
  grossAnnual : ℚ
  grossMonthly : ℚ
  monthlyTax : ℚ
  netMonthly : ℚ
  taxEnabled : Bool
deriving DecidableEq

/-- One point of the projection series built by `buildProjectionSeries`. -/
structure ProjectionPoint where
  month : ℤ
  balance : ℚ
deriving DecidableEq

/-- The two independently mutable ledgers of script.js
(`const subscriptions = []; const annualCosts = [];`). -/
structure AppState where
  subscriptions : List Entry
  annualCosts : List Entry
deriving DecidableEq

/-! ## Tax model: `calculateAnnualTax` (script.js lines 104-137) -/

def personalAllowance : ℚ := 12570
def allowanceTaperStart : ℚ := 100000
def basicRateLimit : ℚ := 37700
def higherRateLimit : ℚ := 125140
def niPrimaryThreshold : ℚ := 12570
def niUpperEarningsLimit : ℚ := 50270
def niMainRate : ℚ := 0.08
def niUpperRate : ℚ := 0.02

/-- `Math.max(0, annualIncome - allowanceTaperStart) / 2` -/
def allowanceReduction (annualIncome : ℚ) : ℚ :=
  max 0 (annualIncome - allowanceTaperStart) / 2

/-- `Math.max(0, personalAllowance - allowanceReduction)` -/
def adjustedAllowance (annualIncome : ℚ) : ℚ :=
  max 0 (personalAllowance - allowanceReduction annualIncome)

/-- `Math.max(0, annualIncome - adjustedAllowance)` -/
def taxableIncome (annualIncome : ℚ) : ℚ :=
  max 0 (annualIncome - adjustedAllowance annualIncome)

/-- `Math.min(taxableIncome, basicRateLimit)` -/
def basicTaxable (annualIncome : ℚ) : ℚ :=
  min (taxableIncome annualIncome) basicRateLimit

/-- `Math.min(Math.max(taxableIncome - basicRateLimit, 0), higherRateLimit - basicRateLimit)` -/
def higherTaxable (annualIncome : ℚ) : ℚ :=
  min (max (taxableIncome annualIncome - basicRateLimit) 0) (higherRateLimit - basicRateLimit)

/-- `Math.max(taxableIncome - higherRateLimit, 0)` -/
def additionalTaxable (annualIncome : ℚ) : ℚ :=
  max (taxableIncome annualIncome - higherRateLimit) 0

/-- `basicTaxable * 0.2 + higherTaxable * 0.4 + additionalTaxable * 0.45` -/
def incomeTax (annualIncome : ℚ) : ℚ :=
  basicTaxable annualIncome * 0.2 + higherTaxable annualIncome * 0.4 +
    additionalTaxable annualIncome * 0.45

/-- The `nationalInsurance` accumulator of `calculateAnnualTax`: 0 unless
`annualIncome > niPrimaryThreshold`, else main band at 8% plus upper band at 2%. -/
def nationalInsurance (annualIncome : ℚ) : ℚ :=
  if annualIncome > niPrimaryThreshold then
    (min annualIncome niUpperEarningsLimit - niPrimaryThreshold) * niMainRate +
      max (annualIncome - niUpperEarningsLimit) 0 * niUpperRate
  else 0

/-- `calculateAnnualTax` of script.js: UK income tax + National Insurance. -/
def calculateAnnualTax (annualIncome : ℚ) : ℚ :=
  incomeTax annualIncome + nationalInsurance annualIncome

/-- The reference schedule written out in spec §4.1, transcribed from the
spec's own formulas (allowance taper, three bands, two NI bands). This is
the refinement target that `calculateAnnualTax` is compared against. -/
def annualTaxSpec (income : ℚ) : ℚ :=
  let allowance := max 0 (12570 - max 0 (income - 100000) / 2)
  let taxable := max 0 (income - allowance)
  let tax := min taxable 37700 * 0.2 +
    min (max (taxable - 37700) 0) (125140 - 37700) * 0.4 +
    max (taxable - 125140) 0 * 0.45
  let ni := if income > 12570 then
    (min income 50270 - 12570) * 0.08 + max (income - 50270) 0 * 0.02
  else 0
  tax + ni

/-! ## Income resolver: `getAnnualIncome` (script.js lines 61-75) -/

/-- `getAnnualIncome` of script.js. In annual mode it returns the parsed
salary only when `annual > 0`; in hourly mode it returns
`rate * hours * 52` only when `rate > 0 && hours > 0`; otherwise `null`. -/
def getAnnualIncome : IncomeInput → Option ℚ
  | .annual amount => if amount > 0 then some amount else none
  | .hourly rate hours =>
      if rate > 0 ∧ hours > 0 then some (rate * hours * 52) else none

/-! ## Calculator: `calculateLocally` (script.js lines 80-99) -/

/-- `calculateLocally` of script.js. The guard `if (!annualIncome) return null`
is JS falsiness: it fires when `getAnnualIncome` returned `null` and also
when it returned the number 0, hence the extra zero test. -/
def calculateLocally (input : IncomeInput) (taxEnabled : Bool) :
    Option CalculationResult :=
  match getAnnualIncome input with
  | none => none
  | some annualIncome =>
    if annualIncome = 0 then none
    else
      let grossMonthly := annualIncome / 12
      let monthlyTax := if taxEnabled then calculateAnnualTax annualIncome / 12 else 0
      some { grossAnnual := annualIncome
             grossMonthly := grossMonthly
             monthlyTax := monthlyTax
             netMonthly := grossMonthly - monthlyTax
             taxEnabled := taxEnabled }

/-- `getSubscriptionsTotal`: `reduce((sum, sub) => sum + sub.amount, 0)`. -/
def getSubscriptionsTotal (subs : List Entry) : ℚ :=
  subs.foldl (fun sum sub => sum + sub.amount) 0

/-- `getAnnualCostsAnnualTotal`: `reduce((sum, cost) => sum + cost.amount, 0)`. -/
def getAnnualCostsAnnualTotal (costs : List Entry) : ℚ :=
  costs.foldl (fun sum cost => sum + cost.amount) 0

/-- `getAnnualCostsMonthlyTotal`: annual total divided by 12. -/
def getAnnualCostsMonthlyTotal (costs : List Entry) : ℚ :=
  getAnnualCostsAnnualTotal costs / 12

/-- `getDisposableMonthly` of script.js (lines 392-397): 0 for an absent
result, else net monthly minus subscriptions total minus the annual costs
monthly equivalent, with no clamping. -/
def getDisposableMonthly (result : Option CalculationResult)
    (subs costs : List Entry) : ℚ :=
  match result with
  | none => 0
  | some r =>
      r.netMonthly - getSubscriptionsTotal subs - getAnnualCostsMonthlyTotal costs

/-! ## Ledger mutations (script.js lines 334-384) -/

/-- JS `String.prototype.trim()`: strips leading and trailing whitespace,
embedded structurally over the string's character list. -/
def jsTrim (s : String) : String :=
  ⟨((s.data.dropWhile Char.isWhitespace).reverse.dropWhile Char.isWhitespace).reverse⟩

/-- JS `Array.prototype.findIndex`: index of the first element satisfying
the predicate, `-1` when none does. -/
def findIndex (p : Entry → Bool) : List Entry → ℤ
  | [] => -1
  | e :: rest =>
      if p e then 0
      else
        let r := findIndex p rest
        if r = -1 then -1 else r + 1

/-- JS `splice(i, 1)`: drop the element at position `i`. -/
def spliceOne (l : List Entry) (i : ℕ) : List Entry :=
  l.take i ++ l.drop (i + 1)

/-- `addSubscription` of script.js, with the DOM reads made explicit: the
raw name input (trimmed inside, as in the source), the parsed amount, and
the `Date.now()` millisecond value used to mint the id. The guard
`if (!name || !amount || amount <= 0) return;` rejects an empty trimmed
name, a zero (falsy) amount, or a non-positive amount. -/
def addSubscription (subs : List Entry) (nowMs : ℕ) (rawName : String)
    (amount : ℚ) : List Entry :=
  let name := jsTrim rawName
  if name = "" ∨ amount = 0 ∨ amount ≤ 0 then subs
  else subs ++ [{ id := toString nowMs, name := name, amount := amount }]

/-- `removeSubscription` of script.js: find the first entry whose id
matches; if `findIndex` gave `-1` do nothing, else `splice(index, 1)`. -/
def removeSubscription (subs : List Entry) (id : String) : List Entry :=
  let index := findIndex (fun sub => sub.id == id) subs
  if index = -1 then subs else spliceOne subs index.toNat

/-- `addAnnualCost` of script.js: same body as `addSubscription`, acting on
the annual-costs array. -/
def addAnnualCost (costs : List Entry) (nowMs : ℕ) (rawName : String)
    (amount : ℚ) : List Entry :=
  let name := jsTrim rawName
  if name = "" ∨ amount = 0 ∨ amount ≤ 0 then costs
  else costs ++ [{ id := toString nowMs, name := name, amount := amount }]

/-- `removeAnnualCost` of script.js: same body as `removeSubscription`,
acting on the annual-costs array. -/
def removeAnnualCost (costs : List Entry) (id : String) : List Entry :=
  let index := findIndex (fun cost => cost.id == id) costs
  if index = -1 then costs else spliceOne costs index.toNat

/-- `removeSubscription` at the level of the whole UI state: the function
only touches the `subscriptions` array, never `annualCosts`. -/
def removeSubscriptionState (s : AppState) (id : String) : AppState :=
  { s with subscriptions := removeSubscription s.subscriptions id }

/-- `removeAnnualCost` at the level of the whole UI state: the function
only touches the `annualCosts` array, never `subscriptions`. -/
def removeAnnualCostState (s : AppState) (id : String) : AppState :=
  { s with annualCosts := removeAnnualCost s.annualCosts id }

/-! ## Projection engine: `buildProjectionSeries` (script.js lines 418-427) -/

/-- `buildProjectionSeries` of script.js: the loop
`for (let i = 0; i <= months; i += 1) series.push({month: i, balance: startBalance + monthlyDelta * i})`,
embedded as a map over the integers `0 ≤ i ≤ months` (none when
`months < 0`, since the loop test fails immediately at `i = 0`). -/
def buildProjectionSeries (startBalance monthlyDelta : ℚ) (months : ℤ) :
    List ProjectionPoint :=
  (List.range (months + 1).toNat).map
    (fun (i : ℕ) =>
      { month := (i : ℤ), balance := startBalance + monthlyDelta * (i : ℚ) })

/-! ## Helper lemmas -/

/-- `calculateAnnualTax` written out as one closed formula (pure unfolding). -/
lemma calculateAnnualTax_eq (i : ℚ) :
    calculateAnnualTax i =
      (min (max 0 (i - max 0 (12570 - max 0 (i - 100000) / 2))) 37700 * 0.2 +
        min (max (max 0 (i - max 0 (12570 - max 0 (i - 100000) / 2)) - 37700) 0)
          (125140 - 37700) * 0.4 +
        max (max 0 (i - max 0 (12570 - max 0 (i - 100000) / 2)) - 125140) 0 * 0.45) +
      (if i > 12570 then
        (min i 50270 - 12570) * 0.08 + max (i - 50270) 0 * 0.02
      else 0) := rfl

lemma taxableIncome_nonneg (i : ℚ) : 0 ≤ taxableIncome i := le_max_left 0 _

lemma taxableIncome_mono {a b : ℚ} (h : a ≤ b) :
    taxableIncome a ≤ taxableIncome b := by
  unfold taxableIncome adjustedAllowance allowanceReduction
  have h1 : max 0 (a - allowanceTaperStart) ≤ max 0 (b - allowanceTaperStart) :=
    max_le_max le_rfl (by linarith)
  have h2 : max 0 (personalAllowance - max 0 (b - allowanceTaperStart) / 2) ≤
      max 0 (personalAllowance - max 0 (a - allowanceTaperStart) / 2) :=
    max_le_max le_rfl (by linarith)
  exact max_le_max le_rfl (by linarith)

lemma incomeTax_mono {a b : ℚ} (h : a ≤ b) : incomeTax a ≤ incomeTax b := by
  have ht := taxableIncome_mono h
  unfold incomeTax basicTaxable higherTaxable additionalTaxable
  have h1 : min (taxableIncome a) basicRateLimit ≤
      min (taxableIncome b) basicRateLimit := min_le_min ht le_rfl
  have h2 : min (max (taxableIncome a - basicRateLimit) 0)
        (higherRateLimit - basicRateLimit) ≤
      min (max (taxableIncome b - basicRateLimit) 0)
        (higherRateLimit - basicRateLimit) :=
    min_le_min (max_le_max (by linarith) le_rfl) le_rfl
  have h3 : max (taxableIncome a - higherRateLimit) 0 ≤
      max (taxableIncome b - higherRateLimit) 0 :=
    max_le_max (by linarith) le_rfl
  have r1 := mul_le_mul_of_nonneg_right h1 (show (0:ℚ) ≤ 0.2 by norm_num)
  have r2 := mul_le_mul_of_nonneg_right h2 (show (0:ℚ) ≤ 0.4 by norm_num)
  have r3 := mul_le_mul_of_nonneg_right h3 (show (0:ℚ) ≤ 0.45 by norm_num)
  linarith

lemma incomeTax_nonneg (i : ℚ) : 0 ≤ incomeTax i := by
  unfold incomeTax basicTaxable higherTaxable additionalTaxable
  have h1 : (0:ℚ) ≤ min (taxableIncome i) basicRateLimit :=
    le_min (taxableIncome_nonneg i) (by norm_num [basicRateLimit])
  have h2 : (0:ℚ) ≤ min (max (taxableIncome i - basicRateLimit) 0)
      (higherRateLimit - basicRateLimit) :=
    le_min (le_max_right _ 0) (by norm_num [higherRateLimit, basicRateLimit])
  have h3 : (0:ℚ) ≤ max (taxableIncome i - higherRateLimit) 0 := le_max_right _ 0
  have r1 := mul_nonneg h1 (show (0:ℚ) ≤ 0.2 by norm_num)
  have r2 := mul_nonneg h2 (show (0:ℚ) ≤ 0.4 by norm_num)
  have r3 := mul_nonneg h3 (show (0:ℚ) ≤ 0.45 by norm_num)
  linarith

lemma nationalInsurance_nonneg (i : ℚ) : 0 ≤ nationalInsurance i := by
  unfold nationalInsurance
  split_ifs with h
  · have hmin : niPrimaryThreshold < min i niUpperEarningsLimit :=
      lt_min h (by norm_num [niPrimaryThreshold, niUpperEarningsLimit])
    have h1 : (0:ℚ) ≤ (min i niUpperEarningsLimit - niPrimaryThreshold) * niMainRate :=
      mul_nonneg (by linarith) (by norm_num [niMainRate])
    have h2 : (0:ℚ) ≤ max (i - niUpperEarningsLimit) 0 * niUpperRate :=
      mul_nonneg (le_max_right _ 0) (by norm_num [niUpperRate])
    linarith
  · exact le_rfl

lemma nationalInsurance_mono {a b : ℚ} (h : a ≤ b) :
    nationalInsurance a ≤ nationalInsurance b := by
  by_cases hb : b > niPrimaryThreshold
  · by_cases ha : a > niPrimaryThreshold
    · simp only [nationalInsurance, if_pos ha, if_pos hb]
      have h1 : min a niUpperEarningsLimit - niPrimaryThreshold ≤
          min b niUpperEarningsLimit - niPrimaryThreshold := by
        have := min_le_min h (le_refl niUpperEarningsLimit)
        linarith
      have h2 : max (a - niUpperEarningsLimit) 0 ≤ max (b - niUpperEarningsLimit) 0 :=
        max_le_max (by linarith) le_rfl
      have r1 := mul_le_mul_of_nonneg_right h1 (show (0:ℚ) ≤ niMainRate by norm_num [niMainRate])
      have r2 := mul_le_mul_of_nonneg_right h2 (show (0:ℚ) ≤ niUpperRate by norm_num [niUpperRate])
      linarith
    · have ha0 : nationalInsurance a = 0 := by simp [nationalInsurance, ha]
      rw [ha0]
      exact nationalInsurance_nonneg b
  · have ha : ¬ a > niPrimaryThreshold := fun h2 => hb (lt_of_lt_of_le h2 h)
    simp [nationalInsurance, ha, hb]

lemma calculateAnnualTax_nonneg (i : ℚ) : 0 ≤ calculateAnnualTax i := by
  unfold calculateAnnualTax
  have := incomeTax_nonneg i
  have := nationalInsurance_nonneg i
  linarith

lemma calculateAnnualTax_mono {a b : ℚ} (h : a ≤ b) :
    calculateAnnualTax a ≤ calculateAnnualTax b := by
  unfold calculateAnnualTax
  have := incomeTax_mono h
  have := nationalInsurance_mono h
  linarith

lemma getAnnualIncome_pos {input : IncomeInput} {v : ℚ}
    (h : getAnnualIncome input = some v) : 0 < v := by
  cases input with
  | annual amount =>
    simp only [getAnnualIncome] at h
    split_ifs at h with ha
    · cases h; exact ha
  | hourly rate hours =>
    simp only [getAnnualIncome] at h
    split_ifs at h with ha
    · cases h
      exact mul_pos (mul_pos ha.1 ha.2) (by norm_num)

/-! ## Claim theorems -/

/-- C1: for every annualIncome ≥ 0, `calculateAnnualTax` equals the §4.1
reference schedule `annualTaxSpec` (allowance taper, three income-tax bands,
two NI bands), and in particular it sends 12570 to 0, 30000 to 4880.4 and
150000 to 58713.6 exactly, in rational arithmetic. -/
theorem calculateAnnualTax_matches_spec :
    (∀ annualIncome : ℚ, 0 ≤ annualIncome →
      calculateAnnualTax annualIncome = annualTaxSpec annualIncome) ∧
    calculateAnnualTax 12570 = 0 ∧
    calculateAnnualTax 30000 = 4880.4 ∧
    calculateAnnualTax 150000 = 58713.6 := by
  refine ⟨fun i _ => rfl, ?_, ?_, ?_⟩
  · rw [calculateAnnualTax_eq]; norm_num [max_def, min_def]
  · rw [calculateAnnualTax_eq]; norm_num [max_def, min_def]
  · rw [calculateAnnualTax_eq]; norm_num [max_def, min_def]

/-- Witness for C1: the refinement instantiated at the concrete income 30000. -/
theorem calculateAnnualTax_matches_spec_witness :
    calculateAnnualTax 30000 = annualTaxSpec 30000 :=
  calculateAnnualTax_matches_spec.1 30000 (by norm_num)

/-- C2: the tax function is nonnegative on positive incomes and
monotonically non-decreasing. -/
theorem calculateAnnualTax_nonneg_monotone :
    (∀ income : ℚ, 0 < income → 0 ≤ calculateAnnualTax income) ∧
    (∀ a b : ℚ, 0 < a → a ≤ b → calculateAnnualTax a ≤ calculateAnnualTax b) :=
  ⟨fun i _ => calculateAnnualTax_nonneg i,
   fun _ _ _ hab => calculateAnnualTax_mono hab⟩

/-- Witness for C2: nonnegativity at 110000 (inside the taper region) and
monotonicity across the taper boundary 100000 ≤ 110000. -/
theorem calculateAnnualTax_nonneg_monotone_witness :
    0 ≤ calculateAnnualTax 110000 ∧
      calculateAnnualTax 100000 ≤ calculateAnnualTax 110000 :=
  ⟨calculateAnnualTax_nonneg_monotone.1 110000 (by norm_num),
   calculateAnnualTax_nonneg_monotone.2 100000 110000 (by norm_num) (by norm_num)⟩

/-- C5: the income resolver returns `rate * hours * 52` in hourly mode
exactly when both are positive, the given amount in annual mode exactly
when positive, absent otherwise; and 20/h at 35 h/week resolves to 36400. -/
theorem getAnnualIncome_spec :
    (∀ rate hours : ℚ, getAnnualIncome (.hourly rate hours) =
      if rate > 0 ∧ hours > 0 then some (rate * hours * 52) else none) ∧
    (∀ amount : ℚ, getAnnualIncome (.annual amount) =
      if amount > 0 then some amount else none) ∧
    getAnnualIncome (.hourly 20 35) = some 36400 := by
  refine ⟨fun _ _ => rfl, fun _ => rfl, ?_⟩
  norm_num [getAnnualIncome]

/-- C4: `calculateLocally` is absent exactly when the income resolver is
absent, and an hourly input with non-positive rate (in particular rate 0)
yields an absent result for any tax setting; ledger contents never enter
`calculateLocally` at all, so the result cannot depend on them. -/
theorem calculateLocally_absent_iff :
    (∀ (input : IncomeInput) (t : Bool),
      calculateLocally input t = none ↔ getAnnualIncome input = none) ∧
    (∀ (rate hours : ℚ) (t : Bool), rate ≤ 0 →
      calculateLocally (.hourly rate hours) t = none) := by
  have hiff : ∀ (input : IncomeInput) (t : Bool),
      calculateLocally input t = none ↔ getAnnualIncome input = none := by
    intro input t
    constructor
    · intro h
      cases hga : getAnnualIncome input with
      | none => rfl
      | some v =>
        have hv : 0 < v := getAnnualIncome_pos hga
        simp only [calculateLocally, hga] at h
        rw [if_neg (by linarith : ¬ v = 0)] at h
        cases h
    · intro h
      rw [calculateLocally, h]
  refine ⟨hiff, fun rate hours t hr => ?_⟩
  rw [(hiff (.hourly rate hours) t)]
  have hcond : ¬ (rate > 0 ∧ hours > 0) := by
    rintro ⟨h1, -⟩
    linarith
  simp only [getAnnualIncome, if_neg hcond]

/-- Witness for C4: hourly rate 0 with 40 hours/week gives an absent result. -/
theorem calculateLocally_absent_iff_witness :
    calculateLocally (.hourly 0 40) true = none :=
  calculateLocally_absent_iff.2 0 40 true le_rfl

/-- C6: for a non-negative horizon the projection series has exactly
`horizon + 1` points, the i-th being `(month i, startBalance + delta*i)`;
`project 1000 200 3` and `project x y 0` evaluate as the spec's examples. -/
theorem buildProjectionSeries_spec :
    (∀ (s d : ℚ) (m : ℤ), 0 ≤ m →
      (buildProjectionSeries s d m).length = (m + 1).toNat ∧
      ∀ i : ℕ, (i : ℤ) ≤ m →
        (buildProjectionSeries s d m)[i]? = some ⟨(i : ℤ), s + d * i⟩) ∧
    buildProjectionSeries 1000 200 3 =
      [⟨0, 1000⟩, ⟨1, 1200⟩, ⟨2, 1400⟩, ⟨3, 1600⟩] ∧
    (∀ x y : ℚ, buildProjectionSeries x y 0 = [⟨0, x⟩]) := by
  refine ⟨fun s d m hm =>
    ⟨by simp only [buildProjectionSeries, List.length_map, List.length_range],
     fun i hi => ?_⟩, ?_, fun x y => ?_⟩
  · have hlt : i < (m + 1).toNat := by omega
    simp only [buildProjectionSeries, List.getElem?_map, List.getElem?_range hlt,
      Option.map_some']
  · simp only [buildProjectionSeries, show ((3:ℤ)+1).toNat = 4 from rfl,
      List.range_succ, List.range_zero, List.map_append, List.map_cons,
      List.map_nil, List.nil_append, List.cons_append]
    norm_num [ProjectionPoint.mk.injEq]
  · simp only [buildProjectionSeries, show ((0:ℤ)+1).toNat = 1 from rfl,
      List.range_succ, List.range_zero, List.map_append, List.map_cons,
      List.map_nil, List.nil_append]
    norm_num [ProjectionPoint.mk.injEq]

/-- Witness for C6: the shape statement instantiated at horizon 2. -/
theorem buildProjectionSeries_spec_witness :
    (buildProjectionSeries 5 7 2).length = ((2:ℤ) + 1).toNat ∧
      (buildProjectionSeries 5 7 2)[1]? = some ⟨1, 5 + 7 * 1⟩ := by
  have h := (buildProjectionSeries_spec.1 5 7 2 (by norm_num))
  exact ⟨h.1, by simpa using h.2 1 (by norm_num)⟩

/-- C10: the projection loop is total over all integer horizons: a negative
horizon yields the empty series, and in general the length is
`max 0 (horizon + 1)`. -/
theorem buildProjectionSeries_total :
    (∀ (s d : ℚ) (m : ℤ), m < 0 → buildProjectionSeries s d m = []) ∧
    (∀ (s d : ℚ) (m : ℤ),
      ((buildProjectionSeries s d m).length : ℤ) = max 0 (m + 1)) := by
  constructor
  · intro s d m hm
    simp only [buildProjectionSeries, Int.toNat_of_nonpos (by omega : m + 1 ≤ 0),
      List.range_zero, List.map_nil]
  · intro s d m
    simp only [buildProjectionSeries, List.length_map, List.length_range]
    rw [Int.toNat_eq_max, max_comm]

/-- Witness for C10: the loop body never runs at horizon -1. -/
theorem buildProjectionSeries_total_witness :
    buildProjectionSeries 1000 200 (-1) = [] :=
  buildProjectionSeries_total.1 1000 200 (-1) (by norm_num)

/-! ## Calculator result invariants -/

/-- C3: every present result of `calculateLocally` satisfies the record
invariants (gross monthly is one twelfth of gross annual, net is gross
minus tax, tax is `calculateAnnualTax/12` when enabled and 0 when
disabled), and the disposable figure is net minus the two ledger totals,
unclamped. -/
theorem calculateLocally_result_invariants :
    ∀ (input : IncomeInput) (t : Bool) (r : CalculationResult),
      calculateLocally input t = some r →
      r.grossMonthly = r.grossAnnual / 12 ∧
      r.netMonthly = r.grossMonthly - r.monthlyTax ∧
      r.monthlyTax = (if t then calculateAnnualTax r.grossAnnual / 12 else 0) ∧
      r.taxEnabled = t ∧
      ∀ subs costs : List Entry,
        getDisposableMonthly (some r) subs costs =
          r.netMonthly - getSubscriptionsTotal subs - getAnnualCostsMonthlyTotal costs := by
  intro input t r h
  cases hga : getAnnualIncome input with
  | none =>
    simp only [calculateLocally, hga] at h
    cases h
  | some v =>
    simp only [calculateLocally, hga] at h
    by_cases hv : v = 0
    · rw [if_pos hv] at h
      cases h
    · rw [if_neg hv] at h
      injection h with h2
      subst h2
      exact ⟨rfl, rfl, rfl, rfl, fun _ _ => rfl⟩

/-- Witness for C3: the invariants instantiated at hourly 20/h, 35 h/week
with tax enabled, whose result record is computed explicitly. -/
theorem calculateLocally_result_invariants_witness :
    getDisposableMonthly
        (some ⟨36400, 9100/3, 16681/30, 24773/10, true⟩) [] [] =
      (24773/10 : ℚ) - getSubscriptionsTotal [] - getAnnualCostsMonthlyTotal [] :=
  (calculateLocally_result_invariants (.hourly 20 35) true
      ⟨36400, 9100/3, 16681/30, 24773/10, true⟩ (by
        simp only [calculateLocally, getAnnualIncome]
        norm_num [calculateAnnualTax_eq, max_def, min_def,
          CalculationResult.mk.injEq])).2.2.2.2 [] []

/-! ## Ledger lemmas -/

lemma findIndex_eq_neg_one {p : Entry → Bool} {l : List Entry}
    (h : ∀ e ∈ l, ¬ p e) : findIndex p l = -1 := by
  induction l with
  | nil => rfl
  | cons a rest ih =>
    have ha : ¬ p a := h a (List.mem_cons_self a rest)
    have hrest := ih (fun e he => h e (List.mem_cons_of_mem a he))
    simp [findIndex, ha, hrest]

lemma findIndex_spec {p : Entry → Bool} {l : List Entry}
    (h : ∃ e ∈ l, p e) :
    ∃ i : ℕ, findIndex p l = (i : ℤ) ∧ i < l.length ∧
      (∀ j, j < i → ∀ e, l[j]? = some e → ¬ p e) ∧
      (∃ e, l[i]? = some e ∧ p e) := by
  induction l with
  | nil => simp at h
  | cons a rest ih =>
    by_cases hpa : p a
    · refine ⟨0, by simp [findIndex, hpa], by simp, ?_, ⟨a, List.getElem?_cons_zero, hpa⟩⟩
      intro j hj
      exact absurd hj (Nat.not_lt_zero j)
    · have hrest : ∃ e ∈ rest, p e := by
        obtain ⟨e, he, hpe⟩ := h
        rcases List.mem_cons.mp he with rfl | hmem
        · exact absurd hpe hpa
        · exact ⟨e, hmem, hpe⟩
      obtain ⟨i, hfi, hlen, hbefore, e, hget, hpe⟩ := ih hrest
      refine ⟨i + 1, ?_, by simpa using Nat.succ_lt_succ hlen, ?_, ⟨e, ?_, hpe⟩⟩
      · simp only [findIndex, if_neg hpa, hfi]
        rw [if_neg (by omega : ¬ (i : ℤ) = -1)]
        push_cast
        ring
      · intro j hj e2 hgete2
        cases j with
        | zero =>
          rw [List.getElem?_cons_zero] at hgete2
          cases hgete2
          exact hpa
        | succ j2 =>
          have hj2 : j2 < i := by omega
          rw [List.getElem?_cons_succ] at hgete2
          exact hbefore j2 hj2 e2 hgete2
      · rw [List.getElem?_cons_succ]
        exact hget

lemma removeSubscription_found {l : List Entry} {rid : String}
    (h : ∃ e ∈ l, e.id = rid) :
    ∃ i : ℕ, i < l.length ∧
      (∀ j, j < i → ∀ e, l[j]? = some e → e.id ≠ rid) ∧
      (∃ e, l[i]? = some e ∧ e.id = rid) ∧
      removeSubscription l rid = l.take i ++ l.drop (i + 1) := by
  have h2 : ∃ e ∈ l, (fun sub : Entry => sub.id == rid) e := by
    obtain ⟨e, he, heq⟩ := h
    exact ⟨e, he, by simpa using heq⟩
  obtain ⟨i, hfi, hlen, hbefore, e, hget, hpe⟩ := findIndex_spec h2
  refine ⟨i, hlen, ?_, ⟨e, hget, by simpa using hpe⟩, ?_⟩
  · intro j hj e2 hg heq
    exact hbefore j hj e2 hg (by simpa using heq)
  · simp only [removeSubscription, hfi]
    rw [if_neg (by omega : ¬ (i : ℤ) = -1)]
    simp [spliceOne, Int.toNat_natCast]

/-- C7: ledger mutations are total functions and atomic no-ops when
rejected: `add` leaves the ledger unchanged when the trimmed name is empty
or the amount is non-positive, otherwise appends exactly one entry at the
end; `remove` of an id not present leaves the ledger unchanged. -/
theorem ledgerMutations_noRaise_atomic :
    ∀ (l : List Entry) (t : ℕ) (rawName : String) (amount : ℚ) (rid : String),
      ((jsTrim rawName = "" ∨ amount ≤ 0) →
        addSubscription l t rawName amount = l) ∧
      (jsTrim rawName ≠ "" → 0 < amount →
        addSubscription l t rawName amount =
          l ++ [⟨toString t, jsTrim rawName, amount⟩]) ∧
      ((∀ e ∈ l, e.id ≠ rid) → removeSubscription l rid = l) := by
  intro l t rawName amount rid
  refine ⟨?_, ?_, ?_⟩
  · intro h
    simp only [addSubscription]
    rw [if_pos]
    rcases h with h | h
    · exact Or.inl h
    · exact Or.inr (Or.inr h)
  · intro h1 h2
    simp only [addSubscription]
    rw [if_neg]
    rintro (h | h | h)
    · exact h1 h
    · linarith [h2, h.ge]
    · linarith
  · intro h
    have hni : findIndex (fun sub => sub.id == rid) l = -1 :=
      findIndex_eq_neg_one (fun e he => by simpa using h e he)
    simp [removeSubscription, hni]

/-- Witness for C7: a whitespace-only name is rejected as a no-op, a valid
entry is appended with its trimmed name, and removing an unknown id is a
no-op. -/
theorem ledgerMutations_noRaise_atomic_witness :
    addSubscription [] 7 "   " 5 = [] ∧
    addSubscription [] 7 " netflix " 5 = [] ++ [⟨toString 7, jsTrim " netflix ", 5⟩] ∧
    removeSubscription [⟨"1", "a", 5⟩] "2" = [⟨"1", "a", 5⟩] :=
  ⟨(ledgerMutations_noRaise_atomic [] 7 "   " 5 "x").1 (Or.inl (by decide)),
   (ledgerMutations_noRaise_atomic [] 7 " netflix " 5 "x").2.1 (by decide) (by decide),
   (ledgerMutations_noRaise_atomic [⟨"1", "a", 5⟩] 7 "x" 5 "2").2.2 (by decide)⟩

/-- `removeAnnualCost` has the same body as `removeSubscription`, so the
two list-level functions agree definitionally. -/
lemma removeAnnualCost_eq (l : List Entry) (rid : String) :
    removeAnnualCost l rid = removeSubscription l rid := rfl

/-- C9: when the id is present in a ledger, the remove operation on that
ledger deletes exactly the first matching entry: everything before the
first match is untouched and unmatched, the result is
`take i ++ drop (i+1)` (so every other entry and the relative order
survive), the length drops by one, and the other ledger component is left
exactly unchanged — `removeSubscription` never touches `annualCosts` and
`removeAnnualCost` never touches `subscriptions`. -/
theorem removeEntry_removes_first :
    ∀ (s : AppState) (rid : String),
      ((∃ e ∈ s.subscriptions, e.id = rid) →
        ∃ i : ℕ, i < s.subscriptions.length ∧
          (∀ j, j < i → ∀ e, s.subscriptions[j]? = some e → e.id ≠ rid) ∧
          (∃ e, s.subscriptions[i]? = some e ∧ e.id = rid) ∧
          removeSubscriptionState s rid =
            { subscriptions := s.subscriptions.take i ++ s.subscriptions.drop (i + 1)
              annualCosts := s.annualCosts } ∧
          (removeSubscriptionState s rid).subscriptions.length + 1 =
            s.subscriptions.length) ∧
      ((∃ e ∈ s.annualCosts, e.id = rid) →
        ∃ i : ℕ, i < s.annualCosts.length ∧
          (∀ j, j < i → ∀ e, s.annualCosts[j]? = some e → e.id ≠ rid) ∧
          (∃ e, s.annualCosts[i]? = some e ∧ e.id = rid) ∧
          removeAnnualCostState s rid =
            { subscriptions := s.subscriptions
              annualCosts := s.annualCosts.take i ++ s.annualCosts.drop (i + 1) } ∧
          (removeAnnualCostState s rid).annualCosts.length + 1 =
            s.annualCosts.length) := by
  intro s rid
  constructor
  · intro h
    obtain ⟨i, hlen, hbefore, hat, heq⟩ := removeSubscription_found h
    refine ⟨i, hlen, hbefore, hat, ?_, ?_⟩
    · show AppState.mk (removeSubscription s.subscriptions rid) s.annualCosts = _
      rw [heq]
    · simp only [removeSubscriptionState, heq, List.length_append,
        List.length_take, List.length_drop]
      omega
  · intro h
    obtain ⟨i, hlen, hbefore, hat, heq⟩ := removeSubscription_found h
    rw [← removeAnnualCost_eq] at heq
    refine ⟨i, hlen, hbefore, hat, ?_, ?_⟩
    · show AppState.mk s.subscriptions (removeAnnualCost s.annualCosts rid) = _
      rw [heq]
    · simp only [removeAnnualCostState, heq, List.length_append,
        List.length_take, List.length_drop]
      omega

/-- A concrete two-subscription, one-annual-cost state used by the C9
witness. -/
def sampleState : AppState :=
  ⟨[⟨"1", "a", 5⟩, ⟨"2", "b", 7⟩], [⟨"3", "c", 9⟩]⟩

/-- Witness for C9: removing subscription id "2" and annual-cost id "3"
from the sample state. -/
theorem removeEntry_removes_first_witness :
    (∃ i : ℕ, i < sampleState.subscriptions.length ∧
      (∀ j, j < i → ∀ e, sampleState.subscriptions[j]? = some e → e.id ≠ "2") ∧
      (∃ e, sampleState.subscriptions[i]? = some e ∧ e.id = "2") ∧
      removeSubscriptionState sampleState "2" =
        { subscriptions :=
            sampleState.subscriptions.take i ++ sampleState.subscriptions.drop (i + 1)
          annualCosts := sampleState.annualCosts } ∧
      (removeSubscriptionState sampleState "2").subscriptions.length + 1 =
        sampleState.subscriptions.length) ∧
    (∃ i : ℕ, i < sampleState.annualCosts.length ∧
      (∀ j, j < i → ∀ e, sampleState.annualCosts[j]? = some e → e.id ≠ "3") ∧
      (∃ e, sampleState.annualCosts[i]? = some e ∧ e.id = "3") ∧
      removeAnnualCostState sampleState "3" =
        { subscriptions := sampleState.subscriptions
          annualCosts :=
            sampleState.annualCosts.take i ++ sampleState.annualCosts.drop (i + 1) } ∧
      (removeAnnualCostState sampleState "3").annualCosts.length + 1 =
        sampleState.annualCosts.length) :=
  ⟨(removeEntry_removes_first sampleState "2").1 ⟨⟨"2", "b", 7⟩, by decide, rfl⟩,
   (removeEntry_removes_first sampleState "3").2 ⟨⟨"3", "c", 9⟩, by decide, rfl⟩⟩

/-! ## Reachable ledger states and id uniqueness -/

/-- Ledger states reachable from the initial empty array by any sequence of
`addSubscription` / `removeSubscription` calls, indexed by the current
`Date.now()` millisecond clock. The clock is non-decreasing between calls
(`t ≤ t2`), which in particular allows two calls within the same
millisecond, exactly as the wall clock does. Each add mints its id as
`Date.now().toString()`, as in script.js line 341. -/
inductive ReachableLedger : ℕ → List Entry → Prop where
  | init (t : ℕ) : ReachableLedger t []
  | addStep {t : ℕ} {l : List Entry} (t2 : ℕ) (rawName : String) (amount : ℚ)
      (hle : t ≤ t2) (hr : ReachableLedger t l) :
      ReachableLedger t2 (addSubscription l t2 rawName amount)
  | removeStep {t : ℕ} {l : List Entry} (t2 : ℕ) (rid : String)
      (hle : t ≤ t2) (hr : ReachableLedger t l) :
      ReachableLedger t2 (removeSubscription l rid)

/-- C8 is violated by the code: two adds within the same millisecond (clock
value 5 for both) reach a ledger whose two entries share the id "5", so
ids are not pairwise distinct in every reachable state. -/
theorem duplicateIds_reachable :
    ReachableLedger 5 [⟨"5", "a", 1⟩, ⟨"5", "b", 2⟩] ∧
    ¬ List.Pairwise (fun x y : Entry => x.id ≠ y.id)
        [⟨"5", "a", 1⟩, ⟨"5", "b", 2⟩] := by
  constructor
  · have h0 := ReachableLedger.init 5
    have h1 := ReachableLedger.addStep 5 "a" 1 le_rfl h0
    rw [show addSubscription [] 5 "a" 1 = [⟨"5", "a", 1⟩] from by decide] at h1
    have h2 := ReachableLedger.addStep 5 "b" 2 le_rfl h1
    rw [show addSubscription [⟨"5", "a", 1⟩] 5 "b" 2 =
        [⟨"5", "a", 1⟩, ⟨"5", "b", 2⟩] from by decide] at h2
    exact h2
  · intro hp
    cases hp with
    | cons h1 h2 => exact (h1 ⟨"5", "b", 2⟩ (List.mem_cons_self _ _)) rfl
